import Mathlib

/-!
# Verification of the Limber `export` command

A shallow embedding of `src/cmd/export.rs` (the scroll-export engine of the
Limber tool) together with theorems settling the specification's claims.

Modelling conventions:
* `serde_json::Value` becomes the inductive `Json`; objects are association
  lists with the first binding of a key the visible one (serde maps have
  unique keys, so `find?` / `filter` coincide with map lookup / removal).
* Machine integers (`usize`) become `Nat`; no arithmetic in the program can
  overflow on realistic inputs and none is performed besides counting.
* The async futures are evaluated sequentially: one worker's scripted list of
  engine responses is consumed in order, and the shared atomic counter is
  threaded through the workers.  `fetch_add` commutes, so the final counter
  value is interleaving-independent.
* `.expect(...)` / `.unwrap()` panics are `Err.panic msg`; errors travelling
  on the future's error channel (elastic/transport failures) are
  `Err.transport msg`.  The source has no structured error taxonomy: every
  failure is a `failure::Error` built with `format_err!`, and the malformed
  response cases are panics, not errors.
-/

namespace Limber

/-- Embedding of `serde_json::Value`. -/
inductive Json where
  | null
  | bool (b : Bool)
  | num (n : Nat)
  | str (s : String)
  | arr (xs : List Json)
  | obj (kvs : List (String × Json))

/-- A JSON object body, as stored under `Json.obj`. -/
abbrev Obj := List (String × Json)

/-- Lookup of a key in an object body (`serde_json::Map::get`). -/
def objGet (kvs : Obj) (k : String) : Option Json :=
  match kvs.find? (fun kv => kv.1 = k) with
  | some kv => some kv.2
  | none => none

/-- Embedding of `Value::get` on a JSON value: key lookup, `None` off objects. -/
def Json.get : Json → String → Option Json
  | .obj kvs, k => objGet kvs k
  | _, _ => none

/-- Embedding of `Value::as_array` — `Some` exactly on arrays. -/
def Json.asArray : Json → Option (List Json)
  | .arr xs => some xs
  | _ => none

/-- Embedding of `Value::as_str` — `Some` exactly on strings. -/
def Json.asStr : Json → Option String
  | .str s => some s
  | _ => none

/-- Embedding of `Value::as_object` — `Some` exactly on objects. -/
def Json.asObject : Json → Option Obj
  | .obj kvs => some kvs
  | _ => none

/-- Embedding of `serde_json::Map::remove` on an object body: drops the key
if present (absence is a no-op). -/
def objRemove (kvs : Obj) (k : String) : Obj :=
  kvs.filter (fun kv => kv.1 ≠ k)

/-- Whether a JSON value is an object carrying the key. -/
def Json.hasKey (j : Json) (k : String) : Bool :=
  (j.get k).isSome

/-- Failures of the export process.  The Rust code carries a single untyped
`failure::Error`; the constructors here record the site that produced the
failure so claims about the error taxonomy can be stated. -/
inductive Err where
  /-- The `format_err!("Invalid cluster resource provided")` failure in
  `parse_cluster_info`. -/
  | invalidCluster
  /-- Failure of `Url::parse` on the `--source` argument. -/
  | urlParse (msg : String)
  /-- Failure of `AsyncClientBuilder::build`. -/
  | clientBuild (msg : String)
  /-- Failure of `serde_json::from_str` on the user's `--query` filter,
  surfaced by `construct_query`. -/
  | queryParse (msg : String)
  /-- An `.expect(msg)` / `.unwrap()` panic inside the scroll loop:
  a process abort, not a value on the future's error channel. -/
  | panic (msg : String)
  /-- A client/network failure on the future's error channel. -/
  | transport (msg : String)
  deriving DecidableEq, Repr

/-- Whether a failure is a panic (process crash) rather than an error value. -/
def Err.isPanic : Err → Bool
  | .panic _ => true
  | _ => false

/-- The parts of a parsed `url::Url` that `parse_cluster_info` inspects:
`scheme()`, `has_host()` (with the serialized authority when present) and
`path()`. -/
structure SourceUrl where
  scheme : String
  host : Option String
  path : String
  deriving DecidableEq, Repr

/-- Embedding of `str::trim_start_matches` with a single-character pattern:
drop every leading occurrence.  (Defined over the character list so the kernel can
evaluate it on literals.) -/
def trim_start_matches (s : String) (c : Char) : String :=
  ⟨s.data.dropWhile (fun x => x = c)⟩

/-- Embedding of `str::starts_with` on strings, over the character lists. -/
def starts_with (s pre : String) : Bool :=
  pre.data.isPrefixOf s.data

/-- Embedding of `parse_cluster_info` (export.rs, lines 157-188), applied to
an already successfully parsed URL.  Note the Rust source contains the
statement `if index.is_empty() { "_all" } else { index };` whose value is
discarded (it is bound to nothing), which the embedding reproduces with a
discarded `let`. -/
def parse_cluster_info (u : SourceUrl) : Except Err (String × String) :=
  if u.host.isNone || !(starts_with u.scheme "http") then
    .error .invalidCluster
  else
    -- url.path().trim_start_matches('/')
    let index := trim_start_matches u.path '/'
    -- `if index.is_empty() { "_all" } else { index };` — value discarded
    let _ := if index.data.isEmpty then "_all" else index
    -- url.set_path(""); url.as_str().trim_end_matches('/')
    let cluster := u.scheme ++ "://" ++ (u.host.getD "")
    .ok (cluster, index)

/-- Embedding of `construct_query` (export.rs, lines 198-229).  `filterParse`
is the result of `serde_json::from_str` on the `--query` argument (or on the
default `{"match_all":{}}`, which parses successfully); `size` is the
`--size` argument after its default of 100 is applied. -/
def construct_query (filterParse : Except String Json) (size : Nat)
    (id : Nat) (max : Nat) : Except Err Json :=
  match filterParse with
  | .error msg => .error (.queryParse msg)
  | .ok filter =>
    let query : Obj :=
      [("query", filter), ("size", .num size), ("sort", .arr [.str "_doc"])]
    if max > 1 then
      .ok (.obj (query ++ [("slice", .obj [("id", .num id), ("max", .num max)])]))
    else
      .ok (.obj query)

/-- The observable per-session state of one worker's scroll session:
documents written to stdout (in order), diagnostic lines written to stderr,
the shared counter's value, and the number of requests this session has
issued to the engine. -/
structure SessState where
  counter : Nat
  emitted : List Json
  diags : List String
  requests : Nat

/-- One engine exchange as scripted for a worker: `.ok v` is a response body
(after `into_response` deserialization), `.error m` a transport failure on
the future's error channel. -/
abbrev Exchange := Except String Json

/-- Embedding of `value.pointer_mut("/hits/hits")`: the token "hits" is
non-numeric, so the pointer resolves only through objects. -/
def getHitsPointer (v : Json) : Option Json :=
  match v.get "hits" with
  | some h => h.get "hits"
  | none => none

/-- Per-hit processing in the emission loop (export.rs lines 97-108):
`hit.as_object_mut().unwrap()`, remove `"sort"` and `"_score"`, print the
mutated hit.  A non-object hit makes `unwrap` panic. -/
def emitHit : Json → Except Err Json
  | .obj kvs => .ok (.obj (objRemove (objRemove kvs "sort") "_score"))
  | _ => .error (.panic "called Option::unwrap() on a None value")

/-- The `for hit in hits` loop: documents printed before a panic stay
printed, so the emitted prefix is returned alongside the failure. -/
def emitHits : List Json → List Json × Option Err
  | [] => ([], none)
  | h :: t =>
    match emitHit h with
    | .ok d =>
      let (ds, e) := emitHits t
      (d :: ds, e)
    | .error e => ([], some e)

/-- The body of `future::loop_fn` in `run` (export.rs lines 80-138),
iterated over the worker's scripted exchanges.  `st` carries the shared
counter and this session's outputs; `value` is the current response body.
Returns the final state and `none` on success (empty page) or `some e` on a
panic/transport failure. -/
def scrollLoop (st : SessState) (value : Json) (script : List Exchange) :
    SessState × Option Err :=
    -- value.pointer_mut("/hits/hits").expect("unable to locate hits")
    match getHitsPointer value with
    | none => (st, some (.panic "unable to locate hits"))
    | some hitsVal =>
      -- .as_array_mut().expect("hits are of wrong type")
      match hitsVal.asArray with
      | none => (st, some (.panic "hits are of wrong type"))
      | some hits =>
        -- empty hits means the session is done
        if hits.isEmpty then
          (st, none)
        else
          let len := hits.length
          let (docs, emitErr) := emitHits hits
          let st1 := { st with emitted := st.emitted ++ docs }
          match emitErr with
          | some e => (st1, some e)
          | none =>
            -- counter.fetch_add(len) returns the old value; the diagnostic
            -- line reports the post-increment total
            let cnt := st1.counter
            let st2 := { st1 with
              counter := cnt + len,
              diags := st1.diags ++
                [s!"Fetched batch of {len}, have now processed {cnt + len}"] }
            -- value.get("_scroll_id").expect("unable to locate scroll_id")
            match value.get "_scroll_id" with
            | none => (st2, some (.panic "unable to locate scroll_id"))
            | some sv =>
              -- .as_str().expect("scroll_id is of wrong type")
              match sv.asStr with
              | none => (st2, some (.panic "scroll_id is of wrong type"))
              | some _scrollId =>
                -- issue the ScrollRequest for the next batch
                match script with
                | [] => (st2, some (.transport "connection closed"))
                | r :: rest =>
                  let st3 := { st2 with requests := st2.requests + 1 }
                  match r with
                  | .error msg => (st3, some (.transport msg))
                  | .ok value2 => scrollLoop st3 value2 rest

/-- One worker's whole scroll session: issue the initial `SearchRequest`
(consuming the first scripted exchange) and run the loop.  `counter0` is the
shared counter's value when the session starts. -/
def runSession (counter0 : Nat) (script : List Exchange) : SessState × Option Err :=
  let st0 : SessState := { counter := counter0, emitted := [], diags := [], requests := 1 }
  match script with
  | [] => (st0, some (.transport "connection closed"))
  | r :: rest =>
    match r with
    | .error msg => (st0, some (.transport msg))
    | .ok value => scrollLoop st0 value rest

/-- The query-construction loop of `run` (export.rs lines 57-70): for each
`idx in 0..workers` call `construct_query(&args, idx, workers)`; the first
failure aborts `run` before any task future is polled. -/
def buildQueries (filterParse : Except String Json) (size : Nat)
    (workers : Nat) : Except Err (List Json) :=
  (List.range workers).mapM (fun idx => construct_query filterParse size idx workers)

/-- Running every spawned session, threading the shared counter.  The real
sessions interleave, but every counter access is an atomic `fetch_add`,
which commutes, so the sequential threading computes the same final value;
completion order is modelled by list order. -/
def runWorkers : Nat → List (List Exchange) → Nat × List (SessState × Option Err)
  | c, [] => (c, [])
  | c, s :: rest =>
    let (st, e) := runSession c s
    let (cFinal, outs) := runWorkers st.counter rest
    (cFinal, (st, e) :: outs)

/-- Embedding of the `future::join_all` error semantics: the reported
failure is the first session (in completion order, modelled as list order)
to fail. -/
def firstErr : List (SessState × Option Err) → Option Err
  | [] => none
  | (_, some e) :: _ => some e
  | (_, none) :: rest => firstErr rest

/-- The observable outcome of the `export` command. -/
structure RunOut where
  result : Except Err Unit
  counter : Nat
  requests : Nat
  sessions : List (SessState × Option Err)

/-- Embedding of `run` (export.rs lines 28-152).  `u` is the parsed
`--source` URL, `workers` and `size` the worker count and page size after
defaulting, `filterParse` the `serde_json::from_str` result on the filter
argument, and `scripts idx` the engine's scripted exchanges for worker
`idx`.  Client construction is an external collaborator and is modelled as
succeeding.  Task futures are lazy: no request is issued before
`join_all` drives them, so an abort during query construction issues zero
requests. -/
def run (u : SourceUrl) (workers size : Nat) (filterParse : Except String Json)
    (scripts : Nat → List Exchange) : RunOut :=
  match parse_cluster_info u with
  | .error e => { result := .error e, counter := 0, requests := 0, sessions := [] }
  | .ok _hostIndex =>
    match buildQueries filterParse size workers with
    | .error e => { result := .error e, counter := 0, requests := 0, sessions := [] }
    | .ok _queries =>
      let outs := (runWorkers 0 ((List.range workers).map scripts)).2
      { result :=
          match firstErr outs with
          | some e => .error e
          | none => .ok ()
        counter := (runWorkers 0 ((List.range workers).map scripts)).1
        requests := (outs.map (fun o => o.1.requests)).sum
        sessions := outs }

/-! ## Specification-side definitions

These mirror the spec's vocabulary (page sizes, diagnostic lines, response
envelopes) so the claims can be stated; the theorems relate them to the
embedded code above. -/

/-- The page's document array, when the response envelope is well-formed. -/
def hitsOf (v : Json) : Option (List Json) :=
  match getHitsPointer v with
  | some h => h.asArray
  | none => none

/-- The wire-contract precondition that every hit in a response's documents
array is a JSON object. -/
def allHitsObjs (v : Json) : Prop :=
  ∀ hits, hitsOf v = some hits → ∀ h ∈ hits, ∃ kvs, h = Json.obj kvs

/-- The size of a response's page when it is a non-final page: `none` for a
malformed envelope or the terminal empty page. -/
def pageSize (value : Json) : Option Nat :=
  match hitsOf value with
  | none => none
  | some hits => if hits.isEmpty then none else some hits.length

/-- The sizes of the non-final pages a session consumes: page sizes are
collected until the terminal empty page, a malformed envelope, or a
transport failure; the terminal empty page contributes nothing. -/
def sizesAux : List Exchange → Json → List Nat
  | [], value =>
    match pageSize value with
    | none => []
    | some n => [n]
  | .error _ :: _, value =>
    match pageSize value with
    | none => []
    | some n => [n]
  | .ok v2 :: rest, value =>
    match pageSize value with
    | none => []
    | some n => n :: sizesAux rest v2

/-- Non-final page sizes of a whole scripted session (first exchange is the
initial search response). -/
def sessionSizes : List Exchange → List Nat
  | [] => []
  | .error _ :: _ => []
  | .ok v :: rest => sizesAux rest v

/-- The diagnostic lines a session starting at counter value `c` writes for
non-final pages of the given sizes, each reporting the post-increment
running total. -/
def diagLines : Nat → List Nat → List String
  | _, [] => []
  | c, n :: rest =>
    s!"Fetched batch of {n}, have now processed {c + n}" :: diagLines (c + n) rest

/-- A well-formed response envelope: a documents array under `hits.hits`
and a continuation cursor under `_scroll_id`. -/
def mkPage (docs : List Json) (cursor : String) : Json :=
  .obj [("_scroll_id", .str cursor), ("hits", .obj [("hits", .arr docs)])]

/-- The record emitted for a source document body: the body with the
transient `"sort"` and `"_score"` keys removed. -/
def stripObj (kvs : Obj) : Json :=
  .obj (objRemove (objRemove kvs "sort") "_score")

/-- Whether an `Except` result is a success. -/
def isOk {α : Type} : Except Err α → Bool
  | .ok _ => true
  | .error _ => false

/-- The session state after one non-final page of `len` documents whose
stripped bodies are `docs`: counter bumped, documents and the diagnostic
line appended.  (The request counter moves only when the continuation
request is actually issued.) -/
def pageAdvance (st : SessState) (len : Nat) (docs : List Json) : SessState :=
  let cnt := st.counter
  { st with
    counter := cnt + len,
    emitted := st.emitted ++ docs,
    diags := st.diags ++
      [s!"Fetched batch of {len}, have now processed {cnt + len}"] }

end Limber

namespace Limber

/-! ## Theorems settling the claims -/

/-- C1 (code bug): on an endpoint whose path trims to empty (here
`http://localhost:9200`, path `"/"`), `parse_cluster_info` returns the
index name `""`, not the `"_all"` alias the claim (and the function's own
doc comment) promises: the statement
`if index.is_empty() { "_all" } else { index };` discards its value.  The
non-empty-path half of the claim does hold, as the second conjunct shows. -/
theorem c1_empty_path_yields_empty_index :
    parse_cluster_info ⟨"http", some "localhost:9200", "/"⟩
        = .ok ("http://localhost:9200", "")
  ∧ parse_cluster_info ⟨"http", some "localhost:9200", "/logs"⟩
        = .ok ("http://localhost:9200", "logs")
  ∧ ("" : String) ≠ "_all" := by
  refine ⟨rfl, rfl, ?_⟩
  decide

/-- C7 (counterexample): the URL `httpx://example.com/idx` has a host and a
scheme that is neither `http` nor `https`, yet `parse_cluster_info` accepts
it — the code only checks `scheme().starts_with("http")` — so the claim's
"fails exactly when … its scheme is not http or https" is false. -/
theorem c7_counterexample_httpx_scheme_accepted :
    isOk (parse_cluster_info ⟨"httpx", some "example.com", "/idx"⟩) = true
  ∧ ("httpx" : String) ≠ "http"
  ∧ ("httpx" : String) ≠ "https"
  ∧ (some "example.com" : Option String).isSome = true := by
  refine ⟨rfl, ?_, ?_, rfl⟩ <;> decide

/-- C7 (amended): `parse_cluster_info` accepts a URL exactly when it has a
host and its scheme starts with `"http"` (so in particular every URL with a
host and scheme `http` or `https` is accepted); otherwise it fails with the
`ConfigError` `"Invalid cluster resource provided"`. -/
theorem c7_accept_iff_host_and_http_scheme (u : SourceUrl) :
    isOk (parse_cluster_info u) = (u.host.isSome && starts_with u.scheme "http")
  ∧ (isOk (parse_cluster_info u) = false →
      parse_cluster_info u = .error .invalidCluster) := by
  unfold parse_cluster_info
  cases hh : u.host <;> cases hs : starts_with u.scheme "http" <;>
    simp [hh, hs, isOk]

/-- C6: for `workers > 1` every worker `id < workers` gets a query whose
`slice` clause is exactly `{id, max: workers}` (so `id ∈ [0, workers)` and
`max = workers`); distinct workers get queries with distinct slice clauses;
and for `workers = 1` the query carries no `slice` key. -/
theorem c6_slice_clause :
    (∀ (f : Json) (size id workers : Nat), 1 < workers → id < workers →
       ∃ q, construct_query (.ok f) size id workers = .ok q ∧
         q.get "slice" = some (.obj [("id", .num id), ("max", .num workers)]))
  ∧ (∀ (f : Json) (size i j workers : Nat), 1 < workers →
       i < workers → j < workers → i ≠ j →
       ∀ qi qj, construct_query (.ok f) size i workers = .ok qi →
         construct_query (.ok f) size j workers = .ok qj →
         qi.get "slice" ≠ qj.get "slice")
  ∧ (∀ (f : Json) (size id : Nat),
       ∃ q, construct_query (.ok f) size id 1 = .ok q ∧ q.get "slice" = none) := by
  have build : ∀ (f : Json) (size id workers : Nat), 1 < workers →
      construct_query (.ok f) size id workers
        = .ok (.obj [("query", f), ("size", .num size), ("sort", .arr [.str "_doc"]),
            ("slice", .obj [("id", .num id), ("max", .num workers)])]) := by
    intro f size id workers hw
    unfold construct_query
    simp [hw]
  refine ⟨?_, ?_, ?_⟩
  · intro f size id workers hw _hid
    exact ⟨_, build f size id workers hw, by simp [Json.get, objGet, List.find?]⟩
  · intro f size i j workers hw _hi _hj hij qi qj hqi hqj
    rw [build f size i workers hw] at hqi
    rw [build f size j workers hw] at hqj
    cases hqi
    cases hqj
    simp [Json.get, objGet, List.find?, hij]
  · intro f size id
    refine ⟨.obj [("query", f), ("size", .num size), ("sort", .arr [.str "_doc"])], ?_, ?_⟩
    · unfold construct_query
      simp
    · simp [Json.get, objGet, List.find?]

/-- C6 witness: worker 0 of 2 gets slice `{id: 0, max: 2}`. -/
theorem c6_slice_clause_witness :
    ∃ q, construct_query (.ok .null) 5 0 2 = .ok q ∧
      q.get "slice" = some (.obj [("id", .num 0), ("max", .num 2)]) :=
  c6_slice_clause.1 .null 5 0 2 (by decide) (by decide)

/-- C7 witness: a URL with a host but an `ftp` scheme is rejected with the
`ConfigError`. -/
theorem c7_accept_witness :
    parse_cluster_info ⟨"ftp", some "h", ""⟩ = .error .invalidCluster :=
  (c7_accept_iff_host_and_http_scheme ⟨"ftp", some "h", ""⟩).2 rfl

/-! ### Helper lemmas about the emission loop and the scroll loop -/

/-- Emitting a page whose hits are all objects succeeds and yields the
stripped bodies, in order. -/
theorem emitHits_objs (o : List Obj) :
    emitHits (o.map Json.obj) = (o.map stripObj, none) := by
  induction o with
  | nil => rfl
  | cons kvs t ih => simp [emitHits, emitHit, ih, stripObj]

/-- The only failure the emission loop can produce is the `unwrap` panic. -/
theorem emitHits_err (l : List Json) (e : Err) :
    (emitHits l).2 = some e →
    e = .panic "called Option::unwrap() on a None value" := by
  induction l with
  | nil => intro h; simp [emitHits] at h
  | cons x t ih =>
    intro h
    rcases hrec : emitHits t with ⟨ds, ee⟩
    cases x <;> simp [emitHits, emitHit, hrec] at h <;> try exact h.symm
    · exact ih (by rw [hrec]; exact h)

/-- A well-formed documents field means the pointer resolved to the array. -/
theorem hitsOf_some {v : Json} {hits : List Json} (h : hitsOf v = some hits) :
    getHitsPointer v = some (.arr hits) := by
  unfold hitsOf at h
  cases hg : getHitsPointer v with
  | none => rw [hg] at h; cases h
  | some hv =>
    rw [hg] at h
    cases hv <;> simp [Json.asArray] at h ⊢
    exact h

/-- A response with an absent or non-array documents field makes the loop
panic immediately, leaving the state (in particular the request count)
untouched. -/
theorem scrollLoop_bad_envelope (st : SessState) (v : Json) (script : List Exchange)
    (h : hitsOf v = none) :
    ∃ msg, scrollLoop st v script = (st, some (.panic msg)) ∧
      (msg = "unable to locate hits" ∨ msg = "hits are of wrong type") := by
  rw [scrollLoop.eq_def]
  unfold hitsOf at h
  cases hg : getHitsPointer v with
  | none => exact ⟨"unable to locate hits", rfl, Or.inl rfl⟩
  | some hv =>
    rw [hg] at h
    refine ⟨"hits are of wrong type", ?_, Or.inr rfl⟩
    cases hv <;> simp [Json.asArray] at h ⊢

/-- A response with an empty documents array terminates the loop
successfully without touching the state. -/
theorem scrollLoop_empty_page (st : SessState) (v : Json) (script : List Exchange)
    (h : hitsOf v = some []) :
    scrollLoop st v script = (st, none) := by
  rw [scrollLoop.eq_def, hitsOf_some h]
  rfl

/-- A page containing a non-object hit makes the emission loop panic; the
documents printed before the bad hit stay emitted and no further request is
issued. -/
theorem scrollLoop_emit_panic (st : SessState) (v : Json) (script : List Exchange)
    (hits : List Json) (e : Err)
    (h : hitsOf v = some hits) (he : (emitHits hits).2 = some e) :
    scrollLoop st v script =
      ({ st with emitted := st.emitted ++ (emitHits hits).1 }, some e) := by
  rw [scrollLoop.eq_def, hitsOf_some h]
  cases hits with
  | nil => simp [emitHits] at he
  | cons x t =>
    rcases hE : emitHits (x :: t) with ⟨docs, ee⟩
    rw [hE] at he
    simp at he
    subst he
    simp [Json.asArray, hE]

/-- A non-final page with a well-formed cursor, followed by a further
scripted response: the loop advances the state, issues the continuation
request and recurses on the next response. -/
theorem scrollLoop_step_ok (st : SessState) (v : Json) (hits docs : List Json)
    (cur : String) (v2 : Json) (rest : List Exchange)
    (h : hitsOf v = some hits) (hne : hits ≠ [])
    (hE : emitHits hits = (docs, none))
    (hcur : v.get "_scroll_id" = some (.str cur)) :
    scrollLoop st v (.ok v2 :: rest) =
      scrollLoop
        { pageAdvance st hits.length docs with requests := st.requests + 1 }
        v2 rest := by
  rw [scrollLoop.eq_def, hitsOf_some h]
  cases hits with
  | nil => exact absurd rfl hne
  | cons x t =>
    simp [Json.asArray, hE, hcur, Json.asStr, pageAdvance]

/-- A non-final page with a well-formed cursor whose continuation request
hits a transport failure: the state advance (including the request) is
recorded and the session fails with the transport error. -/
theorem scrollLoop_step_transport (st : SessState) (v : Json)
    (hits docs : List Json) (cur : String) (msg : String) (rest : List Exchange)
    (h : hitsOf v = some hits) (hne : hits ≠ [])
    (hE : emitHits hits = (docs, none))
    (hcur : v.get "_scroll_id" = some (.str cur)) :
    scrollLoop st v (.error msg :: rest) =
      ({ pageAdvance st hits.length docs with requests := st.requests + 1 },
        some (.transport msg)) := by
  rw [scrollLoop.eq_def, hitsOf_some h]
  cases hits with
  | nil => exact absurd rfl hne
  | cons x t =>
    simp [Json.asArray, hE, hcur, Json.asStr, pageAdvance]

/-- A non-final page with a well-formed cursor but an exhausted script: the
engine no longer answers, modelled as a transport failure on the
continuation request. -/
theorem scrollLoop_step_exhausted (st : SessState) (v : Json)
    (hits docs : List Json) (cur : String)
    (h : hitsOf v = some hits) (hne : hits ≠ [])
    (hE : emitHits hits = (docs, none))
    (hcur : v.get "_scroll_id" = some (.str cur)) :
    scrollLoop st v [] =
      (pageAdvance st hits.length docs, some (.transport "connection closed")) := by
  rw [scrollLoop.eq_def, hitsOf_some h]
  cases hits with
  | nil => exact absurd rfl hne
  | cons x t =>
    simp [Json.asArray, hE, hcur, Json.asStr, pageAdvance]

/-- A non-final page whose cursor field is absent or not a string: the
documents are emitted, the counter bumped, then the loop panics without
issuing a further request. -/
theorem scrollLoop_bad_cursor (st : SessState) (v : Json)
    (hits docs : List Json) (script : List Exchange)
    (h : hitsOf v = some hits) (hne : hits ≠ [])
    (hE : emitHits hits = (docs, none))
    (hcur : (v.get "_scroll_id").bind Json.asStr = none) :
    ∃ msg, scrollLoop st v script =
      (pageAdvance st hits.length docs, some (.panic msg)) ∧
      (msg = "unable to locate scroll_id" ∨ msg = "scroll_id is of wrong type") := by
  rw [scrollLoop.eq_def, hitsOf_some h]
  cases hits with
  | nil => exact absurd rfl hne
  | cons x t =>
    cases hc : v.get "_scroll_id" with
    | none =>
      refine ⟨"unable to locate scroll_id", ?_, Or.inl rfl⟩
      simp [Json.asArray, hE, hc, pageAdvance]
    | some sv =>
      rw [hc] at hcur
      simp only [Option.bind] at hcur
      refine ⟨"scroll_id is of wrong type", ?_, Or.inr rfl⟩
      cases sv <;> simp [Json.asStr] at hcur ⊢ <;>
        simp [Json.asArray, hE, hc, Json.asStr, pageAdvance]

/-- A successful emission means every hit was an object and the emitted
documents are exactly the stripped bodies, in order. -/
theorem emitHits_ok (l : List Json) (h : (emitHits l).2 = none) :
    ∃ o : List Obj, l = o.map Json.obj ∧ (emitHits l).1 = o.map stripObj := by
  induction l with
  | nil => exact ⟨[], rfl, rfl⟩
  | cons x t ih =>
    rcases hrec : emitHits t with ⟨ds, ee⟩
    cases x <;> simp [emitHits, emitHit, hrec] at h
    case obj kvs =>
      subst h
      obtain ⟨o, ho, he⟩ := ih (by rw [hrec])
      refine ⟨kvs :: o, by simp [ho], ?_⟩
      have he' : ds = o.map stripObj := by rw [hrec] at he; simpa using he
      simp [emitHits, emitHit, hrec, stripObj, he']

/-- The response envelopes built by `mkPage` expose their documents array. -/
theorem mkPage_hitsOf (docs : List Json) (cur : String) :
    hitsOf (mkPage docs cur) = some docs := rfl

/-- The response envelopes built by `mkPage` expose their cursor. -/
theorem mkPage_scroll_id (docs : List Json) (cur : String) :
    (mkPage docs cur).get "_scroll_id" = some (.str cur) := rfl

/-- Exhaustive classification of one iteration of the scroll loop. -/
theorem scrollLoop_cases (st : SessState) (v : Json) (script : List Exchange) :
    (∃ msg, hitsOf v = none ∧ scrollLoop st v script = (st, some (.panic msg)) ∧
       (msg = "unable to locate hits" ∨ msg = "hits are of wrong type"))
  ∨ (hitsOf v = some [] ∧ scrollLoop st v script = (st, none))
  ∨ (∃ hits e, hitsOf v = some hits ∧ hits ≠ [] ∧ (emitHits hits).2 = some e ∧
       e = .panic "called Option::unwrap() on a None value" ∧
       scrollLoop st v script =
         ({ st with emitted := st.emitted ++ (emitHits hits).1 }, some e))
  ∨ (∃ hits docs msg, hitsOf v = some hits ∧ hits ≠ [] ∧
       emitHits hits = (docs, none) ∧
       (v.get "_scroll_id").bind Json.asStr = none ∧
       scrollLoop st v script =
         (pageAdvance st hits.length docs, some (.panic msg)) ∧
       (msg = "unable to locate scroll_id" ∨ msg = "scroll_id is of wrong type"))
  ∨ (∃ hits docs cur, hitsOf v = some hits ∧ hits ≠ [] ∧
       emitHits hits = (docs, none) ∧
       v.get "_scroll_id" = some (.str cur) ∧ script = [] ∧
       scrollLoop st v script =
         (pageAdvance st hits.length docs, some (.transport "connection closed")))
  ∨ (∃ hits docs cur msg rest, hitsOf v = some hits ∧ hits ≠ [] ∧
       emitHits hits = (docs, none) ∧
       v.get "_scroll_id" = some (.str cur) ∧ script = .error msg :: rest ∧
       scrollLoop st v script =
         ({ pageAdvance st hits.length docs with requests := st.requests + 1 },
           some (.transport msg)))
  ∨ (∃ hits docs cur v2 rest, hitsOf v = some hits ∧ hits ≠ [] ∧
       emitHits hits = (docs, none) ∧
       v.get "_scroll_id" = some (.str cur) ∧ script = .ok v2 :: rest ∧
       scrollLoop st v script =
         scrollLoop
           { pageAdvance st hits.length docs with requests := st.requests + 1 }
           v2 rest) := by
  cases hh : hitsOf v with
  | none =>
    obtain ⟨msg, hr, hm⟩ := scrollLoop_bad_envelope st v script hh
    exact Or.inl ⟨msg, rfl, hr, hm⟩
  | some hits =>
    cases hits with
    | nil =>
      exact Or.inr (Or.inl ⟨rfl, scrollLoop_empty_page st v script hh⟩)
    | cons x t =>
      rcases hE : emitHits (x :: t) with ⟨docs, ee⟩
      cases ee with
      | some e =>
        refine Or.inr (Or.inr (Or.inl ⟨x :: t, e, rfl, by simp, ?_, ?_, ?_⟩))
        · rw [hE]
        · exact emitHits_err _ _ (by rw [hE])
        · exact scrollLoop_emit_panic st v script _ e hh (by rw [hE])
      | none =>
        cases hc : (v.get "_scroll_id").bind Json.asStr with
        | none =>
          obtain ⟨msg, hr, hm⟩ :=
            scrollLoop_bad_cursor st v (x :: t) docs script hh (by simp) hE hc
          exact Or.inr (Or.inr (Or.inr (Or.inl
            ⟨x :: t, docs, msg, rfl, by simp, hE, rfl, hr, hm⟩)))
        | some cur =>
          have hcur : v.get "_scroll_id" = some (.str cur) := by
            cases hg : v.get "_scroll_id" with
            | none => rw [hg] at hc; cases hc
            | some sv =>
              rw [hg] at hc
              cases sv <;> simp [Json.asStr] at hc
              rw [hc]
          cases script with
          | nil =>
            exact Or.inr (Or.inr (Or.inr (Or.inr (Or.inl
              ⟨x :: t, docs, cur, rfl, by simp, hE, hcur, rfl,
                scrollLoop_step_exhausted st v (x :: t) docs cur hh (by simp) hE hcur⟩))))
          | cons r rest =>
            cases r with
            | error msg =>
              exact Or.inr (Or.inr (Or.inr (Or.inr (Or.inr (Or.inl
                ⟨x :: t, docs, cur, msg, rest, rfl, by simp, hE, hcur, rfl,
                  scrollLoop_step_transport st v (x :: t) docs cur msg rest
                    hh (by simp) hE hcur⟩)))))
            | ok v2 =>
              exact Or.inr (Or.inr (Or.inr (Or.inr (Or.inr (Or.inr
                ⟨x :: t, docs, cur, v2, rest, rfl, by simp, hE, hcur, rfl,
                  scrollLoop_step_ok st v (x :: t) docs cur v2 rest
                    hh (by simp) hE hcur⟩)))))

/-- A successfully emitted page yields one record per hit. -/
theorem emitHits_ok_length (l docs : List Json) (hE : emitHits l = (docs, none)) :
    docs.length = l.length := by
  obtain ⟨o, ho, he⟩ := emitHits_ok l (by rw [hE])
  rw [hE] at he
  simp at he
  rw [he, ho]
  simp

/-- Every record the emission loop produces, even a partial prefix before a
panic, is a stripped object body. -/
theorem emitHits_mem (l : List Json) :
    ∀ d ∈ (emitHits l).1, ∃ kvs, d = stripObj kvs := by
  induction l with
  | nil => intro d hd; simp [emitHits] at hd
  | cons x t ih =>
    intro d hd
    rcases hrec : emitHits t with ⟨ds, ee⟩
    cases x <;> simp [emitHits, emitHit, hrec] at hd
    case obj kvs =>
      rcases hd with hd | hd
      · exact ⟨kvs, by rw [hd]; rfl⟩
      · exact ih d (by rw [hrec]; exact hd)

/-- A list of objects is the object image of its list of bodies. -/
theorem allObjs_map (l : List Json) (h : ∀ x ∈ l, ∃ kvs, x = Json.obj kvs) :
    ∃ o : List Obj, l = o.map Json.obj := by
  induction l with
  | nil => exact ⟨[], rfl⟩
  | cons x t ih =>
    obtain ⟨kvs, hx⟩ := h x (by simp)
    obtain ⟨o, ho⟩ := ih (fun y hy => h y (by simp [hy]))
    exact ⟨kvs :: o, by simp [hx, ho]⟩

/-- Page sizes collected from a terminal empty page. -/
theorem sizesAux_empty {v : Json} (script : List Exchange)
    (hh : hitsOf v = some []) : sizesAux script v = [] := by
  have hp : pageSize v = none := by simp [pageSize, hh]
  cases script with
  | nil => simp [sizesAux, hp]
  | cons r rest => cases r <;> simp [sizesAux, hp]

/-- Page sizes collected from a non-final page followed by a scripted
response. -/
theorem sizesAux_cons {v : Json} {hits : List Json} (v2 : Json)
    (rest : List Exchange) (hh : hitsOf v = some hits) (hne : hits ≠ []) :
    sizesAux (.ok v2 :: rest) v = hits.length :: sizesAux rest v2 := by
  have hp : pageSize v = some hits.length := by
    cases hits with
    | nil => exact absurd rfl hne
    | cons x t => simp [pageSize, hh]
  simp [sizesAux, hp]

/-- Characterization of a successful loop run: the counter advances by the
sum of the non-final page sizes, one diagnostic line is written per
non-final page (with the post-increment total), one continuation request is
issued per non-final page, and one record is emitted per counted document. -/
theorem scrollLoop_ok_char (script : List Exchange) :
    ∀ (st : SessState) (v : Json),
      (scrollLoop st v script).2 = none →
      (scrollLoop st v script).1.counter = st.counter + (sizesAux script v).sum ∧
      (scrollLoop st v script).1.diags
        = st.diags ++ diagLines st.counter (sizesAux script v) ∧
      (scrollLoop st v script).1.requests
        = st.requests + (sizesAux script v).length ∧
      (scrollLoop st v script).1.emitted.length
        = st.emitted.length + (sizesAux script v).sum := by
  induction script with
  | nil =>
    intro st v hok
    rcases scrollLoop_cases st v [] with
      ⟨msg, hh, hr, hm⟩ | ⟨hh, hr⟩ | ⟨hits, e, hh, hne, hE2, hum, hr⟩ |
      ⟨hits, docs, msg, hh, hne, hE, hc, hr, hm⟩ |
      ⟨hits, docs, cur, hh, hne, hE, hcur, hs, hr⟩ |
      ⟨hits, docs, cur, msg, rest, hh, hne, hE, hcur, hs, hr⟩ |
      ⟨hits, docs, cur, v2, rest, hh, hne, hE, hcur, hs, hr⟩
    · rw [hr] at hok; simp at hok
    · rw [hr, sizesAux_empty _ hh]; simp [diagLines]
    · rw [hr] at hok; simp at hok
    · rw [hr] at hok; simp at hok
    · rw [hr] at hok; simp at hok
    · simp at hs
    · simp at hs
  | cons r rest0 ih =>
    intro st v hok
    rcases scrollLoop_cases st v (r :: rest0) with
      ⟨msg, hh, hr, hm⟩ | ⟨hh, hr⟩ | ⟨hits, e, hh, hne, hE2, hum, hr⟩ |
      ⟨hits, docs, msg, hh, hne, hE, hc, hr, hm⟩ |
      ⟨hits, docs, cur, hh, hne, hE, hcur, hs, hr⟩ |
      ⟨hits, docs, cur, msg, rest, hh, hne, hE, hcur, hs, hr⟩ |
      ⟨hits, docs, cur, v2, rest, hh, hne, hE, hcur, hs, hr⟩
    · rw [hr] at hok; simp at hok
    · rw [hr, sizesAux_empty _ hh]; simp [diagLines]
    · rw [hr] at hok; simp at hok
    · rw [hr] at hok; simp at hok
    · simp at hs
    · rw [hr] at hok; simp at hok
    · injection hs with hs1 hs2
      subst hs1
      subst hs2
      rw [hr] at hok ⊢
      obtain ⟨ih1, ih2, ih3, ih4⟩ := ih _ v2 hok
      rw [sizesAux_cons v2 rest0 hh hne]
      have hlen : docs.length = hits.length := emitHits_ok_length hits docs hE
      refine ⟨?_, ?_, ?_, ?_⟩
      · rw [ih1]
        simp only [pageAdvance, List.sum_cons]
        omega
      · rw [ih2]
        simp [pageAdvance, diagLines]
      · rw [ih3]
        simp only [pageAdvance, List.length_cons]
        omega
      · rw [ih4]
        simp only [pageAdvance, List.length_append, List.sum_cons, hlen]
        omega

/-- Provided every hit of every scripted response is a JSON object, the
loop can never reach the `unwrap` panic (the panic site is unreachable
under the wire contract). -/
theorem scrollLoop_no_unwrap (script : List Exchange) :
    ∀ (st : SessState) (v : Json),
      allHitsObjs v →
      (∀ w, Except.ok w ∈ script → allHitsObjs w) →
      (scrollLoop st v script).2
        ≠ some (.panic "called Option::unwrap() on a None value") := by
  induction script with
  | nil =>
    intro st v hv _hsc
    rcases scrollLoop_cases st v [] with
      ⟨msg, hh, hr, hm⟩ | ⟨hh, hr⟩ | ⟨hits, e, hh, hne, hE2, hum, hr⟩ |
      ⟨hits, docs, msg, hh, hne, hE, hc, hr, hm⟩ |
      ⟨hits, docs, cur, hh, hne, hE, hcur, hs, hr⟩ |
      ⟨hits, docs, cur, msg, rest, hh, hne, hE, hcur, hs, hr⟩ |
      ⟨hits, docs, cur, v2, rest, hh, hne, hE, hcur, hs, hr⟩
    · rw [hr]; rcases hm with rfl | rfl <;> simp
    · rw [hr]; simp
    · obtain ⟨o, ho⟩ := allObjs_map hits (hv hits hh)
      rw [ho, emitHits_objs] at hE2
      simp at hE2
    · rw [hr]; rcases hm with rfl | rfl <;> simp
    · rw [hr]; simp
    · simp at hs
    · simp at hs
  | cons r rest0 ih =>
    intro st v hv hsc
    rcases scrollLoop_cases st v (r :: rest0) with
      ⟨msg, hh, hr, hm⟩ | ⟨hh, hr⟩ | ⟨hits, e, hh, hne, hE2, hum, hr⟩ |
      ⟨hits, docs, msg, hh, hne, hE, hc, hr, hm⟩ |
      ⟨hits, docs, cur, hh, hne, hE, hcur, hs, hr⟩ |
      ⟨hits, docs, cur, msg, rest, hh, hne, hE, hcur, hs, hr⟩ |
      ⟨hits, docs, cur, v2, rest, hh, hne, hE, hcur, hs, hr⟩
    · rw [hr]; rcases hm with rfl | rfl <;> simp
    · rw [hr]; simp
    · obtain ⟨o, ho⟩ := allObjs_map hits (hv hits hh)
      rw [ho, emitHits_objs] at hE2
      simp at hE2
    · rw [hr]; rcases hm with rfl | rfl <;> simp
    · simp at hs
    · rw [hr]; simp
    · injection hs with hs1 hs2
      subst hs1
      subst hs2
      rw [hr]
      exact ih _ v2 (hsc v2 (by simp)) (fun w hw => hsc w (by simp [hw]))

/-- Every record a session run appends to the output stream is a stripped
object body, whatever the outcome of the run. -/
theorem scrollLoop_emitted_mem (script : List Exchange) :
    ∀ (st : SessState) (v : Json) (d : Json),
      d ∈ (scrollLoop st v script).1.emitted →
      d ∈ st.emitted ∨ ∃ kvs, d = stripObj kvs := by
  induction script with
  | nil =>
    intro st v d hd
    rcases scrollLoop_cases st v [] with
      ⟨msg, hh, hr, hm⟩ | ⟨hh, hr⟩ | ⟨hits, e, hh, hne, hE2, hum, hr⟩ |
      ⟨hits, docs, msg, hh, hne, hE, hc, hr, hm⟩ |
      ⟨hits, docs, cur, hh, hne, hE, hcur, hs, hr⟩ |
      ⟨hits, docs, cur, msg, rest, hh, hne, hE, hcur, hs, hr⟩ |
      ⟨hits, docs, cur, v2, rest, hh, hne, hE, hcur, hs, hr⟩
    · rw [hr] at hd; exact Or.inl hd
    · rw [hr] at hd; exact Or.inl hd
    · rw [hr] at hd
      simp at hd
      rcases hd with hd | hd
      · exact Or.inl hd
      · exact Or.inr (emitHits_mem hits d hd)
    · rw [hr] at hd
      simp [pageAdvance] at hd
      rcases hd with hd | hd
      · exact Or.inl hd
      · have hdocs : docs = (emitHits hits).1 := by rw [hE]
        exact Or.inr (emitHits_mem hits d (by rw [← hdocs]; exact hd))
    · rw [hr] at hd
      simp [pageAdvance] at hd
      rcases hd with hd | hd
      · exact Or.inl hd
      · have hdocs : docs = (emitHits hits).1 := by rw [hE]
        exact Or.inr (emitHits_mem hits d (by rw [← hdocs]; exact hd))
    · simp at hs
    · simp at hs
  | cons r rest0 ih =>
    intro st v d hd
    rcases scrollLoop_cases st v (r :: rest0) with
      ⟨msg, hh, hr, hm⟩ | ⟨hh, hr⟩ | ⟨hits, e, hh, hne, hE2, hum, hr⟩ |
      ⟨hits, docs, msg, hh, hne, hE, hc, hr, hm⟩ |
      ⟨hits, docs, cur, hh, hne, hE, hcur, hs, hr⟩ |
      ⟨hits, docs, cur, msg, rest, hh, hne, hE, hcur, hs, hr⟩ |
      ⟨hits, docs, cur, v2, rest, hh, hne, hE, hcur, hs, hr⟩
    · rw [hr] at hd; exact Or.inl hd
    · rw [hr] at hd; exact Or.inl hd
    · rw [hr] at hd
      simp at hd
      rcases hd with hd | hd
      · exact Or.inl hd
      · exact Or.inr (emitHits_mem hits d hd)
    · rw [hr] at hd
      simp [pageAdvance] at hd
      rcases hd with hd | hd
      · exact Or.inl hd
      · have hdocs : docs = (emitHits hits).1 := by rw [hE]
        exact Or.inr (emitHits_mem hits d (by rw [← hdocs]; exact hd))
    · simp at hs
    · rw [hr] at hd
      simp [pageAdvance] at hd
      rcases hd with hd | hd
      · exact Or.inl hd
      · have hdocs : docs = (emitHits hits).1 := by rw [hE]
        exact Or.inr (emitHits_mem hits d (by rw [← hdocs]; exact hd))
    · injection hs with hs1 hs2
      subst hs1
      subst hs2
      rw [hr] at hd
      rcases ih _ v2 d hd with hd2 | hd2
      · simp [pageAdvance] at hd2
        rcases hd2 with hd2 | hd2
        · exact Or.inl hd2
        · have hdocs : docs = (emitHits hits).1 := by rw [hE]
          exact Or.inr (emitHits_mem hits d (by rw [← hdocs]; exact hd2))
      · exact Or.inr hd2

/-- A session starting on a well-formed initial response is the loop run
from the fresh state (counter as shared, one request issued). -/
theorem runSession_cons_ok (c : Nat) (v : Json) (rest : List Exchange) :
    runSession c (.ok v :: rest) = scrollLoop ⟨c, [], [], 1⟩ v rest := rfl

/-- A hit that is not an object always drives the emission loop into the
`unwrap` panic. -/
theorem emitHits_nonobj (l : List Json) :
    ∀ x ∈ l, (∀ kvs, x ≠ Json.obj kvs) →
    (emitHits l).2 = some (.panic "called Option::unwrap() on a None value") := by
  induction l with
  | nil => intro x hx; simp at hx
  | cons y t ih =>
    intro x hx hno
    rcases hrec : emitHits t with ⟨ds, ee⟩
    rcases List.mem_cons.mp hx with hxy | hxt
    · subst hxy
      cases x with
      | obj kvs => exact absurd rfl (hno kvs)
      | null => simp [emitHits, emitHit]
      | bool b => simp [emitHits, emitHit]
      | num n => simp [emitHits, emitHit]
      | str s => simp [emitHits, emitHit]
      | arr xs => simp [emitHits, emitHit]
    · cases y with
      | obj kvs =>
        have hih := ih x hxt hno
        rw [hrec] at hih
        simp [emitHits, emitHit, hrec]
        exact hih
      | null => simp [emitHits, emitHit]
      | bool b => simp [emitHits, emitHit]
      | num n => simp [emitHits, emitHit]
      | str s => simp [emitHits, emitHit]
      | arr xs => simp [emitHits, emitHit]

/-- Success characterization lifted to a whole session. -/
theorem runSession_ok_char (c : Nat) (script : List Exchange)
    (hok : (runSession c script).2 = none) :
    (runSession c script).1.counter = c + (sessionSizes script).sum ∧
    (runSession c script).1.diags = diagLines c (sessionSizes script) ∧
    (runSession c script).1.requests = 1 + (sessionSizes script).length ∧
    (runSession c script).1.emitted.length = (sessionSizes script).sum := by
  cases script with
  | nil => simp [runSession] at hok
  | cons r rest =>
    cases r with
    | error msg => simp [runSession] at hok
    | ok v =>
      rw [runSession_cons_ok] at hok ⊢
      obtain ⟨h1, h2, h3, h4⟩ := scrollLoop_ok_char rest ⟨c, [], [], 1⟩ v hok
      exact ⟨by simpa using h1, by simpa using h2, by simpa using h3,
        by simpa using h4⟩

/-- The join reports no error exactly when every session succeeded. -/
theorem firstErr_none_iff (l : List (SessState × Option Err)) :
    firstErr l = none ↔ ∀ r ∈ l, r.2 = none := by
  induction l with
  | nil => simp [firstErr]
  | cons x rest ih =>
    rcases x with ⟨st, e⟩
    cases e with
    | none => simpa [firstErr] using ih
    | some e => simp [firstErr]

/-- The join reports the first failure in completion order. -/
theorem firstErr_first (pre : List (SessState × Option Err)) :
    ∀ (st : SessState) (e : Err) (post : List (SessState × Option Err)),
      (∀ r ∈ pre, r.2 = none) →
      firstErr (pre ++ (st, some e) :: post) = some e := by
  induction pre with
  | nil => intro st e post _; simp [firstErr]
  | cons x rest ih =>
    intro st e post hpre
    rcases x with ⟨st0, e0⟩
    have h0 : e0 = none := hpre (st0, e0) (by simp)
    subst h0
    simpa [firstErr] using ih st e post (fun r hr => hpre r (by simp [hr]))

/-- Unfolding `runWorkers` on an empty worker list. -/
theorem runWorkers_nil (c : Nat) : runWorkers c [] = (c, []) := rfl

/-- Unfolding `runWorkers` on a worker: the session runs on the current
counter value and the remaining workers continue from its final value. -/
theorem runWorkers_cons (c : Nat) (s : List Exchange)
    (rest : List (List Exchange)) :
    runWorkers c (s :: rest) =
      ((runWorkers (runSession c s).1.counter rest).1,
        runSession c s :: (runWorkers (runSession c s).1.counter rest).2) := rfl

/-- After a fully successful fan-out, the shared counter holds the sum over
all workers of the sum of their non-final page sizes. -/
theorem runWorkers_ok_counter (scs : List (List Exchange)) :
    ∀ c : Nat,
      (∀ r ∈ (runWorkers c scs).2, r.2 = none) →
      (runWorkers c scs).1
        = c + (scs.map (fun s => (sessionSizes s).sum)).sum := by
  induction scs with
  | nil => intro c _; simp [runWorkers_nil]
  | cons s rest ih =>
    intro c hall
    rw [runWorkers_cons] at hall ⊢
    have hsess : (runSession c s).2 = none := by
      have hmem := hall (runSession c s) (by simp)
      simpa using hmem
    have hc : (runSession c s).1.counter = c + (sessionSizes s).sum :=
      (runSession_ok_char c s hsess).1
    have hrest := ih (runSession c s).1.counter
      (fun r hr => hall r (by simp [hr]))
    simp only [List.map_cons, List.sum_cons]
    rw [hrest, hc]
    omega

/-- C2 (counterexample): a response with no documents field makes the
session panic (`expect("unable to locate hits")`) — a process crash — not a
recoverable `ProtocolError` as the claim states; the embedded error
taxonomy classifies the outcome as a panic. -/
theorem c2_counterexample_missing_hits_panics :
    (runSession 0 [Except.ok (Json.obj [])]).2
        = some (.panic "unable to locate hits")
  ∧ Err.isPanic (.panic "unable to locate hits") = true := ⟨rfl, rfl⟩

/-- C2 (amended): a response whose documents field is absent or not an
array, or whose continuation cursor is absent or not a string on a
non-empty page, makes the owning session panic (crash via `expect`), and
the session issues no further request (its request count stays at the one
request already issued). -/
theorem c2_malformed_response_panics :
    (∀ (c : Nat) (v : Json) (rest : List Exchange),
       hitsOf v = none →
       ∃ msg, (runSession c (.ok v :: rest)).2 = some (.panic msg) ∧
         (runSession c (.ok v :: rest)).1.requests = 1)
  ∧ (∀ (c : Nat) (v : Json) (rest : List Exchange) (hits : List Json),
       hitsOf v = some hits → hits ≠ [] →
       (v.get "_scroll_id").bind Json.asStr = none →
       ∃ msg, (runSession c (.ok v :: rest)).2 = some (.panic msg) ∧
         (runSession c (.ok v :: rest)).1.requests = 1) := by
  constructor
  · intro c v rest hh
    rw [runSession_cons_ok]
    obtain ⟨msg, hr, _⟩ := scrollLoop_bad_envelope ⟨c, [], [], 1⟩ v rest hh
    exact ⟨msg, by rw [hr], by rw [hr]⟩
  · intro c v rest hits hh hne hcur
    rw [runSession_cons_ok]
    rcases hE : emitHits hits with ⟨docs, ee⟩
    cases ee with
    | some e =>
      have hr := scrollLoop_emit_panic ⟨c, [], [], 1⟩ v rest hits e hh (by rw [hE])
      have he : e = .panic "called Option::unwrap() on a None value" :=
        emitHits_err hits e (by rw [hE])
      refine ⟨"called Option::unwrap() on a None value", ?_, ?_⟩
      · rw [hr, he]
      · rw [hr]
    | none =>
      obtain ⟨msg, hr, _⟩ :=
        scrollLoop_bad_cursor ⟨c, [], [], 1⟩ v hits docs rest hh hne hE hcur
      exact ⟨msg, by rw [hr], by rw [hr]; rfl⟩

/-- C2 witness: a non-empty page with hits but no `_scroll_id` panics with
the request count still at 1. -/
theorem c2_malformed_response_panics_witness :
    ∃ msg, (runSession 0 [Except.ok (Json.obj
        [("hits", Json.obj [("hits", Json.arr [Json.obj []])])])]).2
          = some (.panic msg) ∧
      (runSession 0 [Except.ok (Json.obj
        [("hits", Json.obj [("hits", Json.arr [Json.obj []])])])]).1.requests = 1 :=
  c2_malformed_response_panics.2 0
    (Json.obj [("hits", Json.obj [("hits", Json.arr [Json.obj []])])])
    [] [Json.obj []] rfl (by simp) rfl

/-- C3: a scripted sequence of two non-empty pages followed by an empty
page makes the session emit exactly the two pages' documents, stripped, in
page-then-array order, issue exactly 3 requests, and terminate
successfully; the empty page is never followed by another request, whatever
further responses (`extra`) the engine could still serve. -/
theorem c3_scripted_session (o1 o2 : List Obj) (k1 k2 k3 : String)
    (extra : List Exchange)
    (h1 : o1 ≠ []) (h2 : o2 ≠ []) :
    (runSession 0 (.ok (mkPage (o1.map Json.obj) k1) ::
        .ok (mkPage (o2.map Json.obj) k2) :: .ok (mkPage [] k3) :: extra)).2
      = none
  ∧ (runSession 0 (.ok (mkPage (o1.map Json.obj) k1) ::
        .ok (mkPage (o2.map Json.obj) k2) :: .ok (mkPage [] k3) :: extra)).1.emitted
      = o1.map stripObj ++ o2.map stripObj
  ∧ (runSession 0 (.ok (mkPage (o1.map Json.obj) k1) ::
        .ok (mkPage (o2.map Json.obj) k2) :: .ok (mkPage [] k3) :: extra)).1.emitted.length
      = o1.length + o2.length
  ∧ (runSession 0 (.ok (mkPage (o1.map Json.obj) k1) ::
        .ok (mkPage (o2.map Json.obj) k2) :: .ok (mkPage [] k3) :: extra)).1.requests
      = 3 := by
  have hm1 : (o1.map Json.obj) ≠ [] := by simpa using h1
  have hm2 : (o2.map Json.obj) ≠ [] := by simpa using h2
  rw [runSession_cons_ok]
  rw [scrollLoop_step_ok ⟨0, [], [], 1⟩ (mkPage (o1.map Json.obj) k1)
    (o1.map Json.obj) (o1.map stripObj) k1 (mkPage (o2.map Json.obj) k2)
    (.ok (mkPage [] k3) :: extra) (mkPage_hitsOf _ _) hm1 (emitHits_objs o1)
    (mkPage_scroll_id _ _)]
  rw [scrollLoop_step_ok _ (mkPage (o2.map Json.obj) k2)
    (o2.map Json.obj) (o2.map stripObj) k2 (mkPage [] k3) extra
    (mkPage_hitsOf _ _) hm2 (emitHits_objs o2) (mkPage_scroll_id _ _)]
  rw [scrollLoop_empty_page _ _ _ (mkPage_hitsOf [] k3)]
  refine ⟨rfl, ?_, ?_, rfl⟩
  · simp [pageAdvance]
  · simp [pageAdvance]

/-- C3 witness: two singleton pages then the empty page — 2 documents, 3
requests, success. -/
theorem c3_scripted_session_witness :
    (runSession 0 (.ok (mkPage ([[("a", Json.num 1)]].map Json.obj) "k1") ::
        .ok (mkPage ([[("b", Json.num 2)]].map Json.obj) "k2") ::
        .ok (mkPage [] "k3") :: [])).2 = none
  ∧ (runSession 0 (.ok (mkPage ([[("a", Json.num 1)]].map Json.obj) "k1") ::
        .ok (mkPage ([[("b", Json.num 2)]].map Json.obj) "k2") ::
        .ok (mkPage [] "k3") :: [])).1.emitted
      = [[("a", Json.num 1)]].map stripObj ++ [[("b", Json.num 2)]].map stripObj
  ∧ (runSession 0 (.ok (mkPage ([[("a", Json.num 1)]].map Json.obj) "k1") ::
        .ok (mkPage ([[("b", Json.num 2)]].map Json.obj) "k2") ::
        .ok (mkPage [] "k3") :: [])).1.emitted.length
      = [[("a", Json.num 1)]].length + [[("b", Json.num 2)]].length
  ∧ (runSession 0 (.ok (mkPage ([[("a", Json.num 1)]].map Json.obj) "k1") ::
        .ok (mkPage ([[("b", Json.num 2)]].map Json.obj) "k2") ::
        .ok (mkPage [] "k3") :: [])).1.requests = 3 :=
  c3_scripted_session [[("a", Json.num 1)]] [[("b", Json.num 2)]] "k1" "k2" "k3"
    [] (by simp) (by simp)

/-- Lookup misses every key absent from an object body. -/
theorem objGet_eq_none_of (l : Obj) (k : String) (h : ∀ kv ∈ l, kv.1 ≠ k) :
    objGet l k = none := by
  have hf : l.find? (fun kv => kv.1 = k) = none :=
    List.find?_eq_none.mpr (fun kv hkv => by simpa using h kv hkv)
  simp [objGet, hf]

/-- A stripped document body carries neither the sort key nor the relevance
score key. -/
theorem stripObj_no_transient (kvs : Obj) :
    (stripObj kvs).hasKey "sort" = false ∧
    (stripObj kvs).hasKey "_score" = false := by
  constructor
  · have hg : objGet (objRemove (objRemove kvs "sort") "_score") "sort" = none := by
      apply objGet_eq_none_of
      intro kv hkv
      simp only [objRemove] at hkv
      have hin : kv ∈ (objRemove kvs "sort") := List.mem_of_mem_filter hkv
      simp only [objRemove] at hin
      have hp := List.of_mem_filter hin
      simpa using hp
    simp [Json.hasKey, Json.get, stripObj, hg]
  · have hg : objGet (objRemove (objRemove kvs "sort") "_score") "_score" = none := by
      apply objGet_eq_none_of
      intro kv hkv
      simp only [objRemove] at hkv
      have hp := List.of_mem_filter hkv
      simpa using hp
    simp [Json.hasKey, Json.get, stripObj, hg]

/-- C8: no record a session ever emits carries the `"sort"` key or the
`"_score"` key (whether or not the source document carried them); and the
per-document processing succeeds on every object, so the absence of either
key is not an error. -/
theorem c8_transient_fields_stripped :
    (∀ (c : Nat) (script : List Exchange) (d : Json),
       d ∈ (runSession c script).1.emitted →
       d.hasKey "sort" = false ∧ d.hasKey "_score" = false)
  ∧ (∀ kvs : Obj, emitHit (.obj kvs) = .ok (stripObj kvs)) := by
  constructor
  · intro c script d hd
    cases script with
    | nil => simp [runSession] at hd
    | cons r rest =>
      cases r with
      | error m => simp [runSession] at hd
      | ok v =>
        rw [runSession_cons_ok] at hd
        rcases scrollLoop_emitted_mem rest ⟨c, [], [], 1⟩ v d hd with hmem | ⟨kvs, rfl⟩
        · simp at hmem
        · exact stripObj_no_transient kvs
  · intro kvs
    rfl

/-- C8 witness: a document carrying both transient keys is emitted without
them. -/
theorem c8_transient_fields_stripped_witness :
    (stripObj [("sort", Json.null), ("_score", Json.num 1), ("x", Json.num 2)]).hasKey
        "sort" = false
  ∧ (stripObj [("sort", Json.null), ("_score", Json.num 1), ("x", Json.num 2)]).hasKey
        "_score" = false :=
  c8_transient_fields_stripped.1 0
    [Except.ok (mkPage
      [Json.obj [("sort", Json.null), ("_score", Json.num 1), ("x", Json.num 2)]] "k")]
    (stripObj [("sort", Json.null), ("_score", Json.num 1), ("x", Json.num 2)])
    (List.mem_singleton.mpr rfl)

/-- C4: the shared counter starts at 0; a successful session advances it by
exactly the size of each non-final page, writing for each one exactly one
diagnostic line `Fetched batch of <n>, have now processed <newTotal>` with
the post-increment total; and after a fully successful export the counter
equals the sum over all workers of the sums of their non-final page sizes
(the terminal empty page contributes nothing, by definition of
`sessionSizes`). -/
theorem c4_progress_counter :
    (∀ (c : Nat) (script : List Exchange),
       (runSession c script).2 = none →
       (runSession c script).1.counter = c + (sessionSizes script).sum ∧
       (runSession c script).1.diags = diagLines c (sessionSizes script))
  ∧ (∀ (u : SourceUrl) (workers size : Nat) (fp : Except String Json)
       (scripts : Nat → List Exchange),
       (run u workers size fp scripts).result = .ok () →
       (run u workers size fp scripts).counter
         = ((List.range workers).map
             (fun i => (sessionSizes (scripts i)).sum)).sum) := by
  constructor
  · intro c script hok
    exact ⟨(runSession_ok_char c script hok).1, (runSession_ok_char c script hok).2.1⟩
  · intro u workers size fp scripts hok
    unfold run at hok ⊢
    cases hp : parse_cluster_info u with
    | error e => rw [hp] at hok; simp at hok
    | ok pr =>
      rw [hp] at hok
      cases hq : buildQueries fp size workers with
      | error e => rw [hq] at hok; simp at hok
      | ok qs =>
        rw [hq] at hok
        simp only [] at hok ⊢
        cases hf : firstErr (runWorkers 0 ((List.range workers).map scripts)).2 with
        | some e => rw [hf] at hok; simp at hok
        | none =>
          have hall := (firstErr_none_iff _).mp hf
          have hcnt := runWorkers_ok_counter ((List.range workers).map scripts) 0 hall
          simpa [List.map_map, Function.comp] using hcnt

/-- C4 witness: one page of one document then the empty page, starting from
counter 0. -/
theorem c4_progress_counter_witness :
    (runSession 0 [Except.ok (mkPage [Json.obj []] "k"),
        Except.ok (mkPage [] "k")]).1.counter
      = 0 + (sessionSizes [Except.ok (mkPage [Json.obj []] "k"),
          Except.ok (mkPage [] "k")]).sum
  ∧ (runSession 0 [Except.ok (mkPage [Json.obj []] "k"),
        Except.ok (mkPage [] "k")]).1.diags
      = diagLines 0 (sessionSizes [Except.ok (mkPage [Json.obj []] "k"),
          Except.ok (mkPage [] "k")]) :=
  c4_progress_counter.1 0
    [Except.ok (mkPage [Json.obj []] "k"), Except.ok (mkPage [] "k")] rfl

/-- C5: once the configuration phase has succeeded, the export's overall
result is a success iff every worker session terminated successfully, and
when sessions fail the reported failure is that of the first session (in
completion order, modelled by list order) to terminate in failure. -/
theorem c5_join_failure_semantics (u : SourceUrl) (workers size : Nat)
    (fp : Except String Json) (scripts : Nat → List Exchange)
    (pr : String × String) (qs : List Json)
    (hp : parse_cluster_info u = .ok pr)
    (hq : buildQueries fp size workers = .ok qs) :
    ((run u workers size fp scripts).result = .ok ()
        ↔ ∀ r ∈ (run u workers size fp scripts).sessions, r.2 = none)
  ∧ (∀ (pre : List (SessState × Option Err)) (st : SessState) (e : Err)
       (post : List (SessState × Option Err)),
       (run u workers size fp scripts).sessions = pre ++ (st, some e) :: post →
       (∀ r ∈ pre, r.2 = none) →
       (run u workers size fp scripts).result = .error e) := by
  have hsess : (run u workers size fp scripts).sessions
      = (runWorkers 0 ((List.range workers).map scripts)).2 := by
    unfold run
    rw [hp, hq]
  have hres : ∀ e, firstErr (runWorkers 0 ((List.range workers).map scripts)).2
      = some e → (run u workers size fp scripts).result = .error e := by
    intro e hf
    unfold run
    rw [hp, hq]
    simp [hf]
  have hresOk : firstErr (runWorkers 0 ((List.range workers).map scripts)).2
      = none → (run u workers size fp scripts).result = .ok () := by
    intro hf
    unfold run
    rw [hp, hq]
    simp [hf]
  constructor
  · rw [hsess]
    cases hf : firstErr (runWorkers 0 ((List.range workers).map scripts)).2 with
    | none =>
      rw [hresOk hf]
      constructor
      · intro _
        exact (firstErr_none_iff _).mp hf
      · intro _
        rfl
    | some e =>
      rw [hres e hf]
      constructor
      · intro hcontra
        exact absurd hcontra (by simp)
      · intro hall
        exact absurd hf (by rw [(firstErr_none_iff _).mpr hall]; simp)
  · intro pre st e post hsplit hpre
    rw [hsess] at hsplit
    exact hres e (by rw [hsplit]; exact firstErr_first pre st e post hpre)

/-- C5 witness: a single worker whose initial request hits a transport
failure makes its failure the overall result. -/
theorem c5_join_failure_semantics_witness :
    (run ⟨"http", some "h", "/i"⟩ 1 100 (.ok Json.null)
        (fun _ => [Except.error "boom"])).result
      = .error (.transport "boom") :=
  (c5_join_failure_semantics ⟨"http", some "h", "/i"⟩ 1 100 (.ok Json.null)
      (fun _ => [Except.error "boom"]) ("http://h", "i")
      [Json.obj [("query", Json.null), ("size", Json.num 100),
        ("sort", Json.arr [Json.str "_doc"])]]
      rfl rfl).2
    [] ⟨0, [], [], 1⟩ (.transport "boom") [] rfl (by simp)

/-- C9: an unparseable filter argument aborts the whole export with the
`QueryError` from `serde_json::from_str`, before any session starts: no
request is issued and no session output exists.  (The endpoint must parse,
since `parse_cluster_info` runs first, and at least one worker must exist
for `construct_query` to be called at all.) -/
theorem c9_invalid_filter_aborts (u : SourceUrl) (workers size : Nat)
    (msg : String) (scripts : Nat → List Exchange) (pr : String × String)
    (hp : parse_cluster_info u = .ok pr) (hw : 0 < workers) :
    run u workers size (.error msg) scripts =
      { result := .error (.queryParse msg), counter := 0, requests := 0,
        sessions := [] } := by
  have hq : buildQueries (.error msg) size workers = .error (.queryParse msg) := by
    cases workers with
    | zero => exact absurd hw (by simp)
    | succ n =>
      unfold buildQueries
      rw [List.range_succ_eq_map]
      simp [construct_query, List.mapM, List.mapM.loop, Bind.bind, Except.bind]
  unfold run
  rw [hp, hq]

/-- C9 witness: two workers, a filter that fails to parse — the export
aborts with the query error, zero requests, no sessions. -/
theorem c9_invalid_filter_aborts_witness :
    run ⟨"http", some "localhost:9200", "/logs"⟩ 2 100
        (.error "expected value at line 1 column 1") (fun _ => [])
      = { result := .error (.queryParse "expected value at line 1 column 1"),
          counter := 0, requests := 0, sessions := [] } :=
  c9_invalid_filter_aborts ⟨"http", some "localhost:9200", "/logs"⟩ 2 100
    "expected value at line 1 column 1" (fun _ => [])
    ("http://localhost:9200", "logs") rfl (by decide)

/-- C10: a page whose documents array contains a non-object element makes
the session panic via `unwrap` (not return a session-level error on the
future's error channel); and when every hit of every scripted response is a
JSON object the `unwrap` panic is unreachable. -/
theorem c10_unwrap_on_nonobject_hit :
    (∀ (c : Nat) (v : Json) (rest : List Exchange) (hits : List Json) (x : Json),
       hitsOf v = some hits → x ∈ hits → (∀ kvs, x ≠ Json.obj kvs) →
       (runSession c (.ok v :: rest)).2
         = some (.panic "called Option::unwrap() on a None value"))
  ∧ (∀ (c : Nat) (script : List Exchange),
       (∀ w, Except.ok w ∈ script → allHitsObjs w) →
       (runSession c script).2
         ≠ some (.panic "called Option::unwrap() on a None value")) := by
  constructor
  · intro c v rest hits x hh hx hno
    rw [runSession_cons_ok]
    have he := emitHits_nonobj hits x hx hno
    have hr := scrollLoop_emit_panic ⟨c, [], [], 1⟩ v rest hits _ hh he
    rw [hr]
  · intro c script hsc
    cases script with
    | nil => simp [runSession]
    | cons r rest =>
      cases r with
      | error m => simp [runSession]
      | ok v =>
        rw [runSession_cons_ok]
        exact scrollLoop_no_unwrap rest ⟨c, [], [], 1⟩ v (hsc v (by simp))
          (fun w hw => hsc w (by simp [hw]))

/-- C10 witness: a page whose only hit is the number 3 panics via `unwrap`. -/
theorem c10_unwrap_on_nonobject_hit_witness :
    (runSession 0 [Except.ok (mkPage [Json.num 3] "k")]).2
      = some (.panic "called Option::unwrap() on a None value") :=
  c10_unwrap_on_nonobject_hit.1 0 (mkPage [Json.num 3] "k") [] [Json.num 3]
    (Json.num 3) rfl (by simp) (fun kvs h => Json.noConfusion h)

end Limber
